import Mathlib

/-
Verification of the xarray-annotations schema-validation engine.

The Python source (src/xarray_annotations/lib/schema.py and
src/xarray_annotations/lib/validate.py) is shallowly embedded below.
Conventions of the embedding:
  - element values of an array are modelled over the integers, with NaN
    as a distinguished element (`none`); numpy comparisons against NaN
    are false, which the element predicates reproduce;
  - a coordinate accessor (`value.values`) is either a 0-d scalar or a
    1-d array of values (`NpArray`), and values are integers or strings
    (`PyVal`);
  - Python exceptions are modelled by `PyErr` and fallible code returns
    `Except PyErr`; messages logged at warning level are collected in a
    list, so every check returns `Except PyErr (List String)`;
  - Python dicts are association lists in insertion order, with
    `List.lookup` as subscripting and an order-insensitive equality;
  - `expected_dims` and `expected_coords` each hold either a concrete
    collection or a callback from keyword context, mirroring the
    `list[str] | Callable` union of the source.
-/

namespace XarrayAnnotations

inductive PyVal where
  | int (n : Int)
  | str (s : String)
deriving DecidableEq, Repr

def PyVal.render : PyVal → String
  | .int n => toString n
  | .str s => s

inductive NpArray where
  | scalar (v : PyVal)
  | arr (vs : List PyVal)
deriving DecidableEq, Repr

inductive PyErr where
  | exc (msg : String)
  | keyError (key : String)
  | typeError
deriving DecidableEq, Repr

structure DataArray where
  dims : List String
  coords : List (String × NpArray)
  values : List (Option Int)
deriving DecidableEq, Repr

abbrev Kwargs := List (String × DataArray)

def EXACT_MATCH_TYPE : String := "exact"

def MINIMUM_MATCH_TYPE : String := "minimum"

def VALID_MATCH_TYPES : List String := [EXACT_MATCH_TYPE, MINIMUM_MATCH_TYPE]

/-- Conversion of one coordinate accessor, mirroring the body of the loop in
`coords_as_dict`: a 0-d integer scalar is wrapped in a one-element list
(the `isinstance(value.values.tolist(), int)` branch); a 0-d scalar of any
other type reaches `list(value.values)`, which raises a TypeError on a 0-d
array; a 1-d array yields its ordered value list. -/
def coordElemToList : NpArray → Except PyErr (List PyVal)
  | .scalar (.int n) => .ok [.int n]
  | .scalar _ => .error .typeError
  | .arr vs => .ok vs

def coordsAsDictList : List (String × NpArray) → Except PyErr (List (String × List PyVal))
  | [] => .ok []
  | (item, value) :: rest =>
    match coordElemToList value with
    | .error e => .error e
    | .ok v =>
      match coordsAsDictList rest with
      | .error e => .error e
      | .ok r => .ok ((item, v) :: r)

/-- Embedding of `coords_as_dict` from schema.py. -/
def coords_as_dict (data : DataArray) : Except PyErr (List (String × List PyVal)) :=
  coordsAsDictList data.coords

/-- Python dict equality on association lists: same keys with equal values,
order-insensitive, as `dict.items() == dict.items()` compares. -/
def dictBeq (a b : List (String × List PyVal)) : Bool :=
  a.all (fun p => decide (b.lookup p.1 = some p.2)) &&
    b.all (fun p => decide (a.lookup p.1 = some p.2))

/-- Expected dimensions: the `list[str] | Callable` union of the source. -/
inductive DimsSpec where
  | concrete (dims : List String)
  | callback (f : Kwargs → List String)

/-- Expected coordinates: the `dict[str, Any] | Callable` union of the source. -/
inductive CoordsSpec where
  | concrete (coords : List (String × List PyVal))
  | callback (f : Kwargs → List (String × List PyVal))

structure Schema where
  expected_dims : DimsSpec
  dim_match_type : String
  expected_coords : CoordsSpec
  coord_match_type : String
  minimum_value : Int
  maximum_value : Int
  nan_values_allowed : Bool
  raise_errors : Bool

def invalidMatchTypeMessage (t : String) : String :=
  "Invalid match type: " ++ t ++ ". Please supply one of the following: " ++
    toString VALID_MATCH_TYPES ++ "."

/-- Embedding of `Schema.__init__`: the constructor validates
`dim_match_type` against `VALID_MATCH_TYPES` and stores every field. -/
def Schema.init (expected_dims : DimsSpec) (dim_match_type : String)
    (expected_coords : CoordsSpec) (coord_match_type : String)
    (minimum_value maximum_value : Int)
    (nan_values_allowed raise_errors : Bool) : Except PyErr Schema :=
  if dim_match_type ∉ VALID_MATCH_TYPES then
    .error (.exc (invalidMatchTypeMessage dim_match_type))
  else
    .ok { expected_dims := expected_dims, dim_match_type := dim_match_type,
          expected_coords := expected_coords, coord_match_type := coord_match_type,
          minimum_value := minimum_value, maximum_value := maximum_value,
          nan_values_allowed := nan_values_allowed, raise_errors := raise_errors }

/-- Embedding of `Schema.resolve_expected_dims`. -/
def Schema.resolve_expected_dims (s : Schema) (kwargs : Kwargs) : Schema :=
  match s.expected_dims with
  | .callback f => { s with expected_dims := .concrete (f kwargs) }
  | .concrete _ => s

/-- Embedding of `Schema.resolve_expected_coords`. -/
def Schema.resolve_expected_coords (s : Schema) (kwargs : Kwargs) : Schema :=
  match s.expected_coords with
  | .callback f => { s with expected_coords := .concrete (f kwargs) }
  | .concrete _ => s

/-- Embedding of `Schema._log_or_raise`: raise the message as an exception
when `raise_errors` is set, otherwise emit one warning-level log record. -/
def Schema.log_or_raise (s : Schema) (message : String) : Except PyErr (List String) :=
  if s.raise_errors then .error (.exc message) else .ok [message]

def exactDimsMessage (expected found : List String) : String :=
  "Data dims do not exactly match the expected ones. Expected: " ++
    toString expected ++ ". Found: " ++ toString found ++ "."

def minimumDimsMessage (expected found missing : List String) : String :=
  "Data dims do not contain the minimum expected ones. Expected: " ++
    toString expected ++ ". Found: " ++ toString found ++ ". Missing: " ++
    toString missing ++ "."

/-- Embedding of `Schema._match_dims_exactly`. Calling `len` on a callback
raises a TypeError, as in Python where a function has no `len`. -/
def Schema.match_dims_exactly (s : Schema) (data : DataArray) : Except PyErr (List String) :=
  match s.expected_dims with
  | .callback _ => .error .typeError
  | .concrete expected =>
    if expected.length = 0 then .ok []
    else if data.dims ≠ expected then
      s.log_or_raise (exactDimsMessage expected data.dims)
    else .ok []

/-- Embedding of `Schema._match_minimum_dims`. The loop of the source tests
`dim not in self._expected_dims` — the expected list against itself, not
against `data.dims` — which the embedding reproduces verbatim. -/
def Schema.match_minimum_dims (s : Schema) (data : DataArray) : Except PyErr (List String) :=
  match s.expected_dims with
  | .callback _ => .error .typeError
  | .concrete expected =>
    if expected.length = 0 then .ok []
    else
      let missing_dims := expected.filter (fun dim => !(expected.contains dim))
      if missing_dims ≠ [] then
        s.log_or_raise (minimumDimsMessage expected data.dims missing_dims)
      else .ok []

def coordListToString (vs : List PyVal) : String :=
  "[" ++ String.intercalate ", " (vs.map PyVal.render) ++ "]"

def coordsToString (d : List (String × List PyVal)) : String :=
  String.intercalate ", " (d.map (fun p => p.1 ++ ": " ++ coordListToString p.2))

def exactCoordsMessage (expected coords : List (String × List PyVal)) : String :=
  "Data coords to not exactly match the expected ones. Expected: " ++
    coordsToString expected ++ ". Found: " ++ coordsToString coords ++ "."

/-- Embedding of `Schema._match_coords_exactly`. -/
def Schema.match_coords_exactly (s : Schema) (data : DataArray) : Except PyErr (List String) :=
  match s.expected_coords with
  | .callback _ => .error .typeError
  | .concrete expected =>
    if expected.length = 0 then .ok []
    else
      match coords_as_dict data with
      | .error e => .error e
      | .ok coords =>
        if !(dictBeq expected coords) then
          s.log_or_raise (exactCoordsMessage expected coords)
        else .ok []

/-- Python set containment: `set(a).issuperset(set(b))`. -/
def issuperset (a b : List PyVal) : Bool :=
  b.all (fun v => a.contains v)

/-- The loop of `Schema._match_minimum_coords`. For each expected key in
order, the source first tests membership (appending to `missing_coords`)
and then unconditionally subscripts `coords[coord_name]`, so a missing key
raises a KeyError out of the loop and the locally collected lists are
discarded; hence the first component of a normal result is always empty. -/
def minCoordsLoop (coords : List (String × List PyVal)) :
    List (String × List PyVal) → Except PyErr (List String × List String)
  | [] => .ok ([], [])
  | (coord_name, expected_vals) :: rest =>
    match coords.lookup coord_name with
    | none => .error (.keyError coord_name)
    | some found_vals =>
      match minCoordsLoop coords rest with
      | .error e => .error e
      | .ok r =>
        .ok (r.1, (if issuperset found_vals expected_vals then [] else [coord_name]) ++ r.2)

def missingCoordsMessage (missing : List String)
    (expected coords : List (String × List PyVal)) : String :=
  "Data is missing coordinate(s): " ++ toString missing ++ ". Expected: " ++
    toString (expected.map (fun p => p.1)) ++ ". Found: " ++
    toString (coords.map (fun p => p.1))

/-- Rendering of the expected coordinate values restricted to the
mismatching keys, as built by the first join in the source message. -/
def mismatchExpectedRendering (mismatching : List String)
    (expected : List (String × List PyVal)) : String :=
  String.intercalate ", " (mismatching.map (fun coord => coord ++ ": " ++
    (match expected.lookup coord with
     | some v => coordListToString v
     | none => "")))

/-- Rendering of the found coordinate values restricted to the mismatching
keys, as built by the second join in the source message. -/
def mismatchFoundRendering (mismatching : List String)
    (coords : List (String × List PyVal)) : String :=
  String.intercalate ", " ((coords.filter (fun p => mismatching.contains p.1)).map
    (fun p => p.1 ++ ": " ++ coordListToString p.2))

def mismatchingCoordsMessage (mismatching : List String)
    (expected coords : List (String × List PyVal)) : String :=
  "Data has mismatching coordinate values for coords: " ++ toString mismatching ++
    ". Expected: " ++ mismatchExpectedRendering mismatching expected ++
    ". Found: " ++ mismatchFoundRendering mismatching coords ++ "."

/-- Embedding of `Schema._match_minimum_coords`. -/
def Schema.match_minimum_coords (s : Schema) (data : DataArray) : Except PyErr (List String) :=
  match s.expected_coords with
  | .callback _ => .error .typeError
  | .concrete expected =>
    if expected.length = 0 then .ok []
    else
      match coords_as_dict data with
      | .error e => .error e
      | .ok coords =>
        match minCoordsLoop coords expected with
        | .error e => .error e
        | .ok r =>
          match (if r.1 ≠ [] then
              s.log_or_raise (missingCoordsMessage r.1 expected coords)
            else .ok []) with
          | .error e => .error e
          | .ok l1 =>
            match (if r.2 ≠ [] then
                s.log_or_raise (mismatchingCoordsMessage r.2 expected coords)
              else .ok []) with
            | .error e => .error e
            | .ok l2 => .ok (l1 ++ l2)

def belowMinMessage (m : Int) : String :=
  "Identified values less than the set minimum: " ++ toString m ++ "."

def aboveMaxMessage (m : Int) : String :=
  "Identified values greater than the set maximum: " ++ toString m ++ "."

def nanMessage : String := "Identified NaN values!"

/-- Elementwise `value < bound`; a NaN element compares false, as in numpy. -/
def ltBound (bound : Int) : Option Int → Bool
  | some x => decide (x < bound)
  | none => false

/-- Elementwise `value > bound`; a NaN element compares false, as in numpy. -/
def gtBound (bound : Int) : Option Int → Bool
  | some x => decide (x > bound)
  | none => false

/-- Embedding of `Schema._ensure_values_above_minimum`. -/
def Schema.ensure_values_above_minimum (s : Schema) (data : DataArray) :
    Except PyErr (List String) :=
  if data.values.any (ltBound s.minimum_value) then
    s.log_or_raise (belowMinMessage s.minimum_value)
  else .ok []

/-- Embedding of `Schema._ensure_values_below_maximum`. -/
def Schema.ensure_values_below_maximum (s : Schema) (data : DataArray) :
    Except PyErr (List String) :=
  if data.values.any (gtBound s.maximum_value) then
    s.log_or_raise (aboveMaxMessage s.maximum_value)
  else .ok []

/-- Embedding of `Schema._ensure_no_nan_values`. -/
def Schema.ensure_no_nan_values (s : Schema) (data : DataArray) :
    Except PyErr (List String) :=
  if data.values.any (fun v => v.isNone) then s.log_or_raise nanMessage
  else .ok []

/-- First step of `Schema.validate`: the dimension check branch. -/
def Schema.dimCheckStep (s : Schema) (data : DataArray) : Except PyErr (List String) :=
  if s.dim_match_type = EXACT_MATCH_TYPE then s.match_dims_exactly data
  else s.match_minimum_dims data

/-- Second step of `Schema.validate`: the coordinate check branch; the
source compares against the literal string "exact" here. -/
def Schema.coordCheckStep (s : Schema) (data : DataArray) : Except PyErr (List String) :=
  if s.coord_match_type = "exact" then s.match_coords_exactly data
  else s.match_minimum_coords data

/-- Third step of `Schema.validate`: the NaN check, guarded by the flag. -/
def Schema.nanCheckStep (s : Schema) (data : DataArray) : Except PyErr (List String) :=
  if !s.nan_values_allowed then s.ensure_no_nan_values data
  else .ok []

/-- Embedding of `Schema.validate`: the five checks in source order, with
exception short-circuiting and warning logs accumulated in order. -/
def Schema.validate (s : Schema) (data : DataArray) : Except PyErr (List String) :=
  match s.dimCheckStep data with
  | .error e => .error e
  | .ok l1 =>
    match s.coordCheckStep data with
    | .error e => .error e
    | .ok l2 =>
      match s.nanCheckStep data with
      | .error e => .error e
      | .ok l3 =>
        match s.ensure_values_above_minimum data with
        | .error e => .error e
        | .ok l4 =>
          match s.ensure_values_below_maximum data with
          | .error e => .error e
          | .ok l5 => .ok (l1 ++ l2 ++ l3 ++ l4 ++ l5)

/-- Embedding of the wrapper produced by `check_input` in validate.py: it
resolves dimensions then coordinates from the keyword arguments, subscripts
`kwargs[arg_name]` (a KeyError when absent), validates that value, and only
then invokes the wrapped function. The result pairs the schema object after
its in-place mutation with the outcome: an error, or the logged messages
together with the wrapped function result. -/
def check_input {R : Type} (schema : Schema) (arg_name : String)
    (func : Kwargs → R) (kwargs : Kwargs) :
    Schema × Except PyErr (List String × R) :=
  let s2 := (schema.resolve_expected_dims kwargs).resolve_expected_coords kwargs
  match kwargs.lookup arg_name with
  | none => (s2, .error (.keyError arg_name))
  | some v =>
    match s2.validate v with
    | .error e => (s2, .error e)
    | .ok logs => (s2, .ok (logs, func kwargs))

/-! Sample schemas and arrays used to instantiate the theorems below. -/

def sampleMinDimSchema : Schema :=
  { expected_dims := .concrete ["a"], dim_match_type := "minimum",
    expected_coords := .concrete [], coord_match_type := "exact",
    minimum_value := -1000, maximum_value := 1000,
    nan_values_allowed := true, raise_errors := true }

def sampleArrayB : DataArray :=
  { dims := ["b"], coords := [("b", .arr [.int 1])], values := [some 0] }

def sampleMinCoordSchema : Schema :=
  { expected_dims := .concrete [], dim_match_type := "exact",
    expected_coords := .concrete [("x", [.int 1])], coord_match_type := "minimum",
    minimum_value := -1000, maximum_value := 1000,
    nan_values_allowed := true, raise_errors := true }

def sampleEmptySchema : Schema :=
  { expected_dims := .concrete [], dim_match_type := "exact",
    expected_coords := .concrete [], coord_match_type := "exact",
    minimum_value := -1000, maximum_value := 1000,
    nan_values_allowed := true, raise_errors := true }

def sampleScalarStrArray : DataArray :=
  { dims := ["x"], coords := [("x", .scalar (.str "a"))], values := [some 0] }

def sampleDimsCallback : Kwargs → List String := fun k => k.map (fun p => p.1)

def sampleCoordsCallback : Kwargs → List (String × List PyVal) :=
  fun k => k.map (fun p => (p.1, [.int 0]))

def sampleCallbackSchema : Schema :=
  { expected_dims := .callback sampleDimsCallback, dim_match_type := "exact",
    expected_coords := .callback sampleCoordsCallback, coord_match_type := "exact",
    minimum_value := -1000, maximum_value := 1000,
    nan_values_allowed := true, raise_errors := true }

def sampleKwargs : Kwargs := [("foo", sampleArrayB)]

def sampleKwargs2 : Kwargs := [("bar", sampleScalarStrArray)]

def sampleMixedCoordArray : DataArray :=
  { dims := ["x", "y"],
    coords := [("x", .scalar (.int 3)), ("y", .arr [.str "u", .str "v"])],
    values := [some 1, some 2] }

def sampleBoundSchema : Schema :=
  { expected_dims := .concrete [], dim_match_type := "exact",
    expected_coords := .concrete [], coord_match_type := "exact",
    minimum_value := 0, maximum_value := 100,
    nan_values_allowed := true, raise_errors := false }

def sampleNeg5Array : DataArray :=
  { dims := ["x"], coords := [("x", .arr [.int 1])], values := [some (-5)] }

def sampleNeg7Array : DataArray :=
  { dims := ["x"], coords := [("x", .arr [.int 1])], values := [some (-7)] }

def sampleMinCoordLogSchema : Schema :=
  { expected_dims := .concrete [], dim_match_type := "exact",
    expected_coords := .concrete [("x", [.int 1])], coord_match_type := "minimum",
    minimum_value := -1000, maximum_value := 1000,
    nan_values_allowed := true, raise_errors := false }

/-- Naive substring occurrence test on strings, used to state which data a
violation message names. -/
def strContains (s pat : String) : Bool :=
  (List.range (s.toList.length + 1)).any
    (fun i => pat.toList.isPrefixOf (s.toList.drop i))

/-- Structural description of a successful `coords_as_dict` run: each input
coordinate entry corresponds, in order, to an output entry with the same
name whose value list is `coordElemToList` of its accessor. -/
theorem coordsAsDictList_forall (l : List (String × NpArray))
    (cd : List (String × List PyVal)) (h : coordsAsDictList l = .ok cd) :
    List.Forall₂ (fun p q => p.1 = q.1 ∧ coordElemToList p.2 = .ok q.2) l cd := by
  induction l generalizing cd with
  | nil =>
    simp only [coordsAsDictList] at h
    cases h
    exact List.Forall₂.nil
  | cons p rest ih =>
    obtain ⟨name, value⟩ := p
    simp only [coordsAsDictList] at h
    cases hv : coordElemToList value with
    | error e => simp [hv] at h
    | ok v =>
      simp only [hv] at h
      cases hr : coordsAsDictList rest with
      | error e => simp [hr] at h
      | ok r =>
        simp only [hr] at h
        cases h
        exact List.Forall₂.cons ⟨rfl, hv⟩ (ih r hr)

/-- The MINIMUM dimension check with a concrete expectation always returns
normally with no violation: the source loop filters `expected_dims` by
non-membership in `expected_dims` itself, so the missing list is empty. -/
theorem match_minimum_dims_noop (s : Schema) (d : DataArray)
    (exp : List String) (h : s.expected_dims = .concrete exp) :
    s.match_minimum_dims d = .ok [] := by
  have hf : exp.filter (fun dim => !(exp.contains dim)) = [] := by
    rw [List.filter_eq_nil_iff]
    intro a ha
    simp [ha]
  by_cases h0 : exp.length = 0 <;>
    simp [Schema.match_minimum_dims, h, h0, hf]

/-- Helper: with `raise_errors` false, the policy point logs the message
and returns normally. -/
theorem log_or_raise_ok (s : Schema) (m : String) (h : s.raise_errors = false) :
    s.log_or_raise m = .ok [m] := by
  simp [Schema.log_or_raise, h]

/-- Helper: when every expected key is present in the coordinate dict, the
MINIMUM coordinate loop returns normally. -/
theorem minCoordsLoop_isOk (coords : List (String × List PyVal))
    (expected : List (String × List PyVal))
    (h : ∀ p ∈ expected, (coords.lookup p.1).isSome) :
    ∃ r, minCoordsLoop coords expected = .ok r := by
  induction expected with
  | nil => exact ⟨([], []), rfl⟩
  | cons p rest ih =>
    obtain ⟨name, vals⟩ := p
    have hp : (coords.lookup name).isSome := h (name, vals) (by simp)
    obtain ⟨v, hv⟩ := Option.isSome_iff_exists.mp hp
    obtain ⟨r, hr⟩ := ih (fun q hq => h q (List.mem_cons_of_mem _ hq))
    exact ⟨(r.1, (if issuperset v vals then [] else [name]) ++ r.2),
      by simp [minCoordsLoop, hv, hr]⟩

/-- Helper: with `raise_errors` false and a concrete expectation, the EXACT
dimension check returns normally. -/
theorem match_dims_exactly_log_ok (s : Schema) (d : DataArray)
    (expd : List String) (hd : s.expected_dims = .concrete expd)
    (hr : s.raise_errors = false) :
    ∃ m, s.match_dims_exactly d = .ok m := by
  simp only [Schema.match_dims_exactly, hd]
  split
  · exact ⟨[], rfl⟩
  · split
    · exact ⟨_, log_or_raise_ok s _ hr⟩
    · exact ⟨[], rfl⟩

/-- Helper: with `raise_errors` false, a concrete expectation and a
convertible coordinate dict, the EXACT coordinate check returns normally. -/
theorem match_coords_exactly_log_ok (s : Schema) (d : DataArray)
    (expc cd : List (String × List PyVal))
    (hc : s.expected_coords = .concrete expc) (hcd : coords_as_dict d = .ok cd)
    (hr : s.raise_errors = false) :
    ∃ m, s.match_coords_exactly d = .ok m := by
  simp only [Schema.match_coords_exactly, hc]
  split
  · exact ⟨[], rfl⟩
  · simp only [hcd]
    split
    · exact ⟨_, log_or_raise_ok s _ hr⟩
    · exact ⟨[], rfl⟩

/-- Helper: with `raise_errors` false, a concrete expectation, a
convertible coordinate dict and every expected key present, the MINIMUM
coordinate check returns normally. -/
theorem match_minimum_coords_log_ok (s : Schema) (d : DataArray)
    (expc cd : List (String × List PyVal))
    (hc : s.expected_coords = .concrete expc) (hcd : coords_as_dict d = .ok cd)
    (hpres : ∀ p ∈ expc, (cd.lookup p.1).isSome)
    (hr : s.raise_errors = false) :
    ∃ m, s.match_minimum_coords d = .ok m := by
  obtain ⟨r, hrr⟩ := minCoordsLoop_isOk cd expc hpres
  simp only [Schema.match_minimum_coords, hc]
  split
  · exact ⟨[], rfl⟩
  · simp only [hcd, hrr]
    by_cases h1 : r.1 = [] <;> by_cases h2 : r.2 = [] <;>
      simp [Schema.log_or_raise, hr, h1, h2]

/-- Helper: with `raise_errors` false, each value check returns normally. -/
theorem value_checks_log_ok (s : Schema) (d : DataArray)
    (hr : s.raise_errors = false) :
    (∃ m, s.ensure_values_above_minimum d = .ok m) ∧
    (∃ m, s.ensure_values_below_maximum d = .ok m) ∧
    (∃ m, s.ensure_no_nan_values d = .ok m) := by
  refine ⟨?_, ?_, ?_⟩
  · unfold Schema.ensure_values_above_minimum
    split
    · exact ⟨_, log_or_raise_ok s _ hr⟩
    · exact ⟨[], rfl⟩
  · unfold Schema.ensure_values_below_maximum
    split
    · exact ⟨_, log_or_raise_ok s _ hr⟩
    · exact ⟨[], rfl⟩
  · unfold Schema.ensure_no_nan_values
    split
    · exact ⟨_, log_or_raise_ok s _ hr⟩
    · exact ⟨[], rfl⟩

/-- Claim C1: for every schema with MINIMUM dimension matching and a concrete,
non-empty expected dimension list, the dimension check is a no-op: it
returns normally with no violation for every array, because the source
loop tests membership of each expected name in `expected_dims` itself
rather than in the array dimensions. This refutes the claim that a
violation is reported exactly when an expected name is absent from the
array. -/
theorem match_minimum_dims_never_reports (s : Schema) (d : DataArray)
    (exp : List String) (h : s.expected_dims = .concrete exp) :
    s.match_minimum_dims d = .ok [] :=
  match_minimum_dims_noop s d exp h

theorem match_minimum_dims_never_reports_witness :
    sampleMinDimSchema.expected_dims = DimsSpec.concrete ["a"] ∧
    sampleMinDimSchema.match_minimum_dims sampleArrayB = .ok [] ∧
    sampleMinDimSchema.validate sampleArrayB = .ok [] :=
  ⟨rfl, match_minimum_dims_never_reports sampleMinDimSchema sampleArrayB ["a"] rfl, rfl⟩

/-- Claim C2: with MINIMUM coordinate matching, an expected key absent from the
array coordinate mapping does not produce the aggregated missing-coordinate
violation through the raise-or-log policy: the loop subscripts the
coordinate dict unconditionally, so a KeyError escapes `validate`. Here the
schema expects coordinate "x" and the array has only "b": `validate` ends
in a KeyError, not in the policy exception. -/
theorem match_minimum_coords_keyError :
    sampleMinCoordSchema.validate sampleArrayB = .error (.keyError "x") ∧
    sampleMinCoordSchema.match_minimum_coords sampleArrayB = .error (.keyError "x") :=
  ⟨rfl, rfl⟩

/-- Claim C3: the constructor validates only `dim_match_type`: an invalid
`coord_match_type` ("bogus") is accepted and a Schema instance is produced,
while an invalid `dim_match_type` raises. This refutes the claim that
construction fails for any invalid value of either field. -/
theorem init_accepts_invalid_coord_match_type :
    Schema.init (.concrete []) "exact" (.concrete []) "bogus" 0 0 true true =
      .ok { expected_dims := .concrete [], dim_match_type := "exact",
            expected_coords := .concrete [], coord_match_type := "bogus",
            minimum_value := 0, maximum_value := 0,
            nan_values_allowed := true, raise_errors := true } ∧
    Schema.init (.concrete []) "bogus" (.concrete []) "exact" 0 0 true true =
      .error (.exc (invalidMatchTypeMessage "bogus")) :=
  ⟨rfl, rfl⟩

/-- Claim C5: an empty concrete expectation disables the corresponding check in
both EXACT and MINIMUM modes: each of the four check functions returns
normally with no violation and no log, for every array. -/
theorem empty_expectations_skip_checks (s : Schema) (d : DataArray) :
    (s.expected_dims = .concrete [] →
      s.match_dims_exactly d = .ok [] ∧ s.match_minimum_dims d = .ok []) ∧
    (s.expected_coords = .concrete [] →
      s.match_coords_exactly d = .ok [] ∧ s.match_minimum_coords d = .ok []) := by
  constructor
  · intro h
    constructor <;> simp [Schema.match_dims_exactly, Schema.match_minimum_dims, h]
  · intro h
    constructor <;> simp [Schema.match_coords_exactly, Schema.match_minimum_coords, h]

theorem empty_expectations_skip_checks_witness :
    sampleEmptySchema.expected_dims = DimsSpec.concrete [] ∧
    sampleEmptySchema.expected_coords = CoordsSpec.concrete [] ∧
    (sampleEmptySchema.match_dims_exactly sampleScalarStrArray = .ok [] ∧
      sampleEmptySchema.match_minimum_dims sampleScalarStrArray = .ok []) ∧
    (sampleEmptySchema.match_coords_exactly sampleScalarStrArray = .ok [] ∧
      sampleEmptySchema.match_minimum_coords sampleScalarStrArray = .ok []) :=
  ⟨rfl, rfl,
    (empty_expectations_skip_checks sampleEmptySchema sampleScalarStrArray).1 rfl,
    (empty_expectations_skip_checks sampleEmptySchema sampleScalarStrArray).2 rfl⟩

/-- Claim C6: resolution is a no-op on a concrete expectation for any context;
only a callback-valued expectation is replaced, by its value on the given
context, and once concrete any further resolution with any other context
changes nothing. -/
theorem resolve_idempotent_once_concrete (s : Schema) (k k2 : Kwargs) :
    (∀ l, s.expected_dims = .concrete l → s.resolve_expected_dims k = s) ∧
    (∀ c, s.expected_coords = .concrete c → s.resolve_expected_coords k = s) ∧
    (∀ f, s.expected_dims = .callback f →
      (s.resolve_expected_dims k).expected_dims = .concrete (f k) ∧
      (s.resolve_expected_dims k).resolve_expected_dims k2 =
        s.resolve_expected_dims k) ∧
    (∀ g, s.expected_coords = .callback g →
      (s.resolve_expected_coords k).expected_coords = .concrete (g k) ∧
      (s.resolve_expected_coords k).resolve_expected_coords k2 =
        s.resolve_expected_coords k) := by
  refine ⟨?_, ?_, ?_, ?_⟩
  · intro l h
    simp [Schema.resolve_expected_dims, h]
  · intro c h
    simp [Schema.resolve_expected_coords, h]
  · intro f h
    simp [Schema.resolve_expected_dims, h]
  · intro g h
    simp [Schema.resolve_expected_coords, h]

theorem resolve_idempotent_once_concrete_witness :
    sampleEmptySchema.expected_dims = DimsSpec.concrete [] ∧
    sampleEmptySchema.resolve_expected_dims sampleKwargs = sampleEmptySchema ∧
    sampleCallbackSchema.expected_dims = DimsSpec.callback sampleDimsCallback ∧
    (sampleCallbackSchema.resolve_expected_dims sampleKwargs).expected_dims =
      DimsSpec.concrete (sampleDimsCallback sampleKwargs) ∧
    (sampleCallbackSchema.resolve_expected_dims sampleKwargs).resolve_expected_dims
        sampleKwargs2 =
      sampleCallbackSchema.resolve_expected_dims sampleKwargs :=
  ⟨rfl,
    (resolve_idempotent_once_concrete sampleEmptySchema sampleKwargs sampleKwargs2).1
      [] rfl,
    rfl,
    ((resolve_idempotent_once_concrete sampleCallbackSchema sampleKwargs
        sampleKwargs2).2.2.1 sampleDimsCallback rfl).1,
    ((resolve_idempotent_once_concrete sampleCallbackSchema sampleKwargs
        sampleKwargs2).2.2.1 sampleDimsCallback rfl).2⟩

/-- Claim C7: the input-validation wrapper resolves dimensions then coordinates
from the keyword arguments, then looks up `arg_name` (a KeyError when
absent, and the wrapped function result is not part of the outcome), then
validates that value; only when validation returns normally is the wrapped
function invoked, and its result is returned unchanged next to the logged
messages. -/
theorem check_input_wrapper_behavior {R : Type} (schema : Schema) (arg_name : String)
    (func : Kwargs → R) (kwargs : Kwargs) :
    (check_input schema arg_name func kwargs).1 =
      (schema.resolve_expected_dims kwargs).resolve_expected_coords kwargs ∧
    (kwargs.lookup arg_name = none →
      (check_input schema arg_name func kwargs).2 = .error (.keyError arg_name) ∧
      ∀ g : Kwargs → R,
        (check_input schema arg_name g kwargs).2 = .error (.keyError arg_name)) ∧
    (∀ v, kwargs.lookup arg_name = some v →
      (∀ e, ((schema.resolve_expected_dims kwargs).resolve_expected_coords
            kwargs).validate v = .error e →
        (check_input schema arg_name func kwargs).2 = .error e ∧
        ∀ g : Kwargs → R, (check_input schema arg_name g kwargs).2 = .error e) ∧
      (∀ logs, ((schema.resolve_expected_dims kwargs).resolve_expected_coords
            kwargs).validate v = .ok logs →
        (check_input schema arg_name func kwargs).2 = .ok (logs, func kwargs))) := by
  refine ⟨?_, ?_, ?_⟩
  · simp only [check_input]
    cases hl : kwargs.lookup arg_name with
    | none => rfl
    | some v =>
      cases hv : ((schema.resolve_expected_dims kwargs).resolve_expected_coords
          kwargs).validate v <;> simp [hv]
  · intro h
    constructor
    · simp [check_input, h]
    · intro g
      simp [check_input, h]
  · intro v hv
    constructor
    · intro e he
      constructor
      · simp [check_input, hv, he]
      · intro g
        simp [check_input, hv, he]
    · intro logs hlogs
      simp [check_input, hv, hlogs]

theorem check_input_wrapper_behavior_witness :
    sampleKwargs.lookup "foo" = some sampleArrayB ∧
    ((sampleEmptySchema.resolve_expected_dims sampleKwargs).resolve_expected_coords
        sampleKwargs).validate sampleArrayB = .ok [] ∧
    (check_input sampleEmptySchema "foo" (fun k => k.length) sampleKwargs).2 =
      .ok ([], 1) := by
  refine ⟨rfl, rfl, ?_⟩
  exact ((check_input_wrapper_behavior sampleEmptySchema "foo"
    (fun k => k.length) sampleKwargs).2.2 sampleArrayB rfl).2 [] rfl

/-- Claim C10: when `arg_name` is absent from the keyword arguments the wrapper
still performs both resolve steps first, so callback expectations on the
shared schema are replaced by concrete values despite the failed call; it
then fails with a KeyError, and the wrapped function is never invoked: the
entire wrapper result is the same for every wrapped function. -/
theorem check_input_resolves_before_key_lookup {R : Type} (schema : Schema)
    (arg_name : String) (func : Kwargs → R) (kwargs : Kwargs)
    (habs : kwargs.lookup arg_name = none) :
    (check_input schema arg_name func kwargs).1 =
      (schema.resolve_expected_dims kwargs).resolve_expected_coords kwargs ∧
    (check_input schema arg_name func kwargs).2 = .error (.keyError arg_name) ∧
    (∀ f2 : Kwargs → R, check_input schema arg_name f2 kwargs =
      check_input schema arg_name func kwargs) ∧
    (∀ fd, schema.expected_dims = .callback fd →
      (check_input schema arg_name func kwargs).1.expected_dims =
        .concrete (fd kwargs)) ∧
    (∀ fc, schema.expected_coords = .callback fc →
      (check_input schema arg_name func kwargs).1.expected_coords =
        .concrete (fc kwargs)) := by
  refine ⟨?_, ?_, ?_, ?_, ?_⟩
  · simp [check_input, habs]
  · simp [check_input, habs]
  · intro f2
    simp [check_input, habs]
  · intro fd h
    cases hc : schema.expected_coords <;>
      simp [check_input, habs, Schema.resolve_expected_dims,
        Schema.resolve_expected_coords, h, hc]
  · intro fc h
    cases hd : schema.expected_dims <;>
      simp [check_input, habs, Schema.resolve_expected_dims,
        Schema.resolve_expected_coords, h, hd]

theorem check_input_resolves_before_key_lookup_witness :
    sampleKwargs2.lookup "foo" = none ∧
    (check_input sampleCallbackSchema "foo" (fun k => k.length) sampleKwargs2).2 =
      .error (.keyError "foo") ∧
    (check_input sampleCallbackSchema "foo" (fun k => k.length)
        sampleKwargs2).1.expected_dims =
      DimsSpec.concrete (sampleDimsCallback sampleKwargs2) ∧
    (check_input sampleCallbackSchema "foo" (fun k => k.length)
        sampleKwargs2).1.expected_coords =
      CoordsSpec.concrete (sampleCoordsCallback sampleKwargs2) := by
  refine ⟨rfl, ?_, ?_, ?_⟩
  · exact (check_input_resolves_before_key_lookup sampleCallbackSchema "foo"
      (fun k => k.length) sampleKwargs2 rfl).2.1
  · exact ((check_input_resolves_before_key_lookup sampleCallbackSchema "foo"
      (fun k => k.length) sampleKwargs2 rfl).2.2.2.1 sampleDimsCallback rfl)
  · exact ((check_input_resolves_before_key_lookup sampleCallbackSchema "foo"
      (fun k => k.length) sampleKwargs2 rfl).2.2.2.2 sampleCoordsCallback rfl)

/-- Claim C8 counterexample: the below-minimum violation message does not name
the found value(s). Validating an array whose offending value is -5 yields
exactly the fixed message for minimum 0, the same message results when the
offending value is -7, and that message contains neither "-5" nor "-7":
the report names only the configured bound. -/
theorem bound_message_omits_found_values :
    sampleBoundSchema.validate sampleNeg5Array = .ok [belowMinMessage 0] ∧
    sampleBoundSchema.validate sampleNeg7Array = .ok [belowMinMessage 0] ∧
    strContains (belowMinMessage 0) "-5" = false ∧
    strContains (belowMinMessage 0) "-7" = false := by
  refine ⟨rfl, rfl, ?_, ?_⟩ <;> decide

/-- Claim C8 (amended): every dimension and coordinate violation message
names both the expected and the found values — the EXACT dimension message
renders the expected and found dimension sequences, the MINIMUM dimension
message renders expected, found and missing, the EXACT coordinate message
renders the expected and found mappings, the missing-coordinate message
renders the missing keys next to the expected and found key lists, and the
mismatching-values message renders the expected and found value lists of
the mismatching keys — but the below-minimum and above-maximum messages
are functions of the configured bound alone, rendering the bound and never
the offending values, and the NaN message is one fixed string naming
neither. In logging mode each value check emits either nothing or exactly
its single fixed message. -/
theorem bound_messages_name_only_bounds (s : Schema) (d : DataArray)
    (hr : s.raise_errors = false) :
    (s.ensure_values_above_minimum d = .ok [] ∨
      s.ensure_values_above_minimum d = .ok [belowMinMessage s.minimum_value]) ∧
    (s.ensure_values_below_maximum d = .ok [] ∨
      s.ensure_values_below_maximum d = .ok [aboveMaxMessage s.maximum_value]) ∧
    (s.ensure_no_nan_values d = .ok [] ∨
      s.ensure_no_nan_values d = .ok [nanMessage]) ∧
    (∃ pre post, belowMinMessage s.minimum_value =
      pre ++ toString s.minimum_value ++ post) ∧
    (∃ pre post, aboveMaxMessage s.maximum_value =
      pre ++ toString s.maximum_value ++ post) ∧
    (∀ expd fnd, ∃ a b c, exactDimsMessage expd fnd =
      a ++ toString expd ++ b ++ toString fnd ++ c) ∧
    (∀ expd fnd missing, ∃ a b c e, minimumDimsMessage expd fnd missing =
      a ++ toString expd ++ b ++ toString fnd ++ c ++ toString missing ++ e) ∧
    (∀ expc cds, ∃ a b c, exactCoordsMessage expc cds =
      a ++ coordsToString expc ++ b ++ coordsToString cds ++ c) ∧
    (∀ missing expc cds, ∃ a b c, missingCoordsMessage missing expc cds =
      a ++ toString missing ++ b ++ toString (expc.map (fun p => p.1)) ++ c ++
        toString (cds.map (fun p => p.1))) ∧
    (∀ mm expc cds, ∃ a b c, mismatchingCoordsMessage mm expc cds =
      a ++ mismatchExpectedRendering mm expc ++ b ++
        mismatchFoundRendering mm cds ++ c) := by
  refine ⟨?_, ?_, ?_, ⟨_, _, rfl⟩, ⟨_, _, rfl⟩, fun expd fnd => ⟨_, _, _, rfl⟩,
    fun expd fnd missing => ⟨_, _, _, _, rfl⟩, fun expc cds => ⟨_, _, _, rfl⟩,
    fun missing expc cds => ⟨_, _, _, rfl⟩, fun mm expc cds => ⟨_, _, _, rfl⟩⟩
  · by_cases hb : d.values.any (ltBound s.minimum_value) <;>
      simp [Schema.ensure_values_above_minimum, Schema.log_or_raise, hr, hb]
  · by_cases hb : d.values.any (gtBound s.maximum_value) <;>
      simp [Schema.ensure_values_below_maximum, Schema.log_or_raise, hr, hb]
  · by_cases hb : d.values.any (fun v => v.isNone) <;>
      simp [Schema.ensure_no_nan_values, Schema.log_or_raise, hr, hb]

theorem bound_messages_name_only_bounds_witness :
    sampleBoundSchema.raise_errors = false ∧
    (sampleBoundSchema.ensure_values_above_minimum sampleNeg5Array = .ok [] ∨
      sampleBoundSchema.ensure_values_above_minimum sampleNeg5Array =
        .ok [belowMinMessage sampleBoundSchema.minimum_value]) :=
  ⟨rfl, (bound_messages_name_only_bounds sampleBoundSchema sampleNeg5Array rfl).1⟩

/-- Claim C9 counterexample: a single-element (0-d scalar) coordinate is not
turned into a one-element sequence for every element type: on a scalar
string coordinate the extraction reaches `list()` over a 0-d array and a
TypeError escapes instead. -/
theorem coords_as_dict_scalar_str_fails :
    coords_as_dict sampleScalarStrArray = .error .typeError := rfl

/-- Claim C9 (amended): whenever the extraction succeeds it maps each coordinate
entry, in order, to its dimension name paired with an ordered value list;
a 0-d integer scalar becomes a one-element list and a 1-d array keeps its
ordered values. Scalar coordinates of non-integer element types instead
raise a TypeError (shown separately at a concrete input). -/
theorem coords_as_dict_characterization (d : DataArray)
    (cd : List (String × List PyVal)) (h : coords_as_dict d = .ok cd) :
    List.Forall₂ (fun p q => p.1 = q.1 ∧ coordElemToList p.2 = .ok q.2)
      d.coords cd ∧
    (∀ n : Int, coordElemToList (.scalar (.int n)) = .ok [.int n]) ∧
    (∀ vs, coordElemToList (.arr vs) = .ok vs) :=
  ⟨coordsAsDictList_forall d.coords cd h, fun _ => rfl, fun _ => rfl⟩

theorem coords_as_dict_characterization_witness :
    coords_as_dict sampleMixedCoordArray =
      .ok [("x", [.int 3]), ("y", [.str "u", .str "v"])] ∧
    List.Forall₂ (fun p q => p.1 = q.1 ∧ coordElemToList p.2 = .ok q.2)
      sampleMixedCoordArray.coords [("x", [.int 3]), ("y", [.str "u", .str "v"])] :=
  ⟨rfl,
    (coords_as_dict_characterization sampleMixedCoordArray
      [("x", [.int 3]), ("y", [.str "u", .str "v"])] rfl).1⟩

/-- Claim C4 counterexample: with `raise_errors` false the claim requires every
check to run and `validate` to return normally, each violation only being
logged; but with a MINIMUM coordinate expectation whose key "x" is absent
from the array, a KeyError escapes `validate` even in logging mode, so the
later checks do not run and `validate` does not return normally. -/
theorem validate_keyError_escapes_logging_mode :
    sampleMinCoordLogSchema.raise_errors = false ∧
    sampleMinCoordLogSchema.validate sampleArrayB = .error (.keyError "x") :=
  ⟨rfl, rfl⟩

/-- Claim C4 (amended): for schemas with already-concrete expectations, on arrays
whose coordinates convert, and — when the coordinate mode is not EXACT —
with every expected coordinate key present in the array (otherwise a
KeyError escapes regardless of the policy flag): with `raise_errors` false
every check in the order dimensions, coordinates, NaN, minimum, maximum
returns normally and `validate` returns the accumulated warning messages
concatenated in that order; with `raise_errors` true, `validate` ends with
the error of the first violated check and the results of later checks do
not enter the outcome. -/
theorem validate_check_order_and_policy (s : Schema) (d : DataArray)
    (expd : List String) (expc cd : List (String × List PyVal))
    (hd : s.expected_dims = .concrete expd)
    (hc : s.expected_coords = .concrete expc)
    (hcd : coords_as_dict d = .ok cd)
    (hpres : s.coord_match_type = "exact" ∨ ∀ p ∈ expc, (cd.lookup p.1).isSome) :
    (s.raise_errors = false →
      ∃ m1 m2 m3 m4 m5,
        s.dimCheckStep d = .ok m1 ∧ s.coordCheckStep d = .ok m2 ∧
        s.nanCheckStep d = .ok m3 ∧ s.ensure_values_above_minimum d = .ok m4 ∧
        s.ensure_values_below_maximum d = .ok m5 ∧
        s.validate d = .ok (m1 ++ m2 ++ m3 ++ m4 ++ m5)) ∧
    (s.raise_errors = true →
      (∀ e, s.dimCheckStep d = .error e → s.validate d = .error e) ∧
      (∀ l1 e, s.dimCheckStep d = .ok l1 → s.coordCheckStep d = .error e →
        s.validate d = .error e) ∧
      (∀ l1 l2 e, s.dimCheckStep d = .ok l1 → s.coordCheckStep d = .ok l2 →
        s.nanCheckStep d = .error e → s.validate d = .error e) ∧
      (∀ l1 l2 l3 e, s.dimCheckStep d = .ok l1 → s.coordCheckStep d = .ok l2 →
        s.nanCheckStep d = .ok l3 → s.ensure_values_above_minimum d = .error e →
        s.validate d = .error e) ∧
      (∀ l1 l2 l3 l4 e, s.dimCheckStep d = .ok l1 → s.coordCheckStep d = .ok l2 →
        s.nanCheckStep d = .ok l3 → s.ensure_values_above_minimum d = .ok l4 →
        s.ensure_values_below_maximum d = .error e → s.validate d = .error e) ∧
      (∀ l1 l2 l3 l4 l5, s.dimCheckStep d = .ok l1 → s.coordCheckStep d = .ok l2 →
        s.nanCheckStep d = .ok l3 → s.ensure_values_above_minimum d = .ok l4 →
        s.ensure_values_below_maximum d = .ok l5 →
        s.validate d = .ok (l1 ++ l2 ++ l3 ++ l4 ++ l5))) := by
  constructor
  · intro hr
    have hdim : ∃ m, s.dimCheckStep d = .ok m := by
      unfold Schema.dimCheckStep
      split
      · exact match_dims_exactly_log_ok s d expd hd hr
      · exact ⟨[], match_minimum_dims_noop s d expd hd⟩
    have hcoord : ∃ m, s.coordCheckStep d = .ok m := by
      unfold Schema.coordCheckStep
      split
      · exact match_coords_exactly_log_ok s d expc cd hc hcd hr
      · rename_i hx
        rcases hpres with h | h
        · exact absurd h hx
        · exact match_minimum_coords_log_ok s d expc cd hc hcd h hr
    obtain ⟨hmin, hmax, hnanv⟩ := value_checks_log_ok s d hr
    have hnan : ∃ m, s.nanCheckStep d = .ok m := by
      unfold Schema.nanCheckStep
      split
      · exact hnanv
      · exact ⟨[], rfl⟩
    obtain ⟨m1, h1⟩ := hdim
    obtain ⟨m2, h2⟩ := hcoord
    obtain ⟨m3, h3⟩ := hnan
    obtain ⟨m4, h4⟩ := hmin
    obtain ⟨m5, h5⟩ := hmax
    exact ⟨m1, m2, m3, m4, m5, h1, h2, h3, h4, h5,
      by simp [Schema.validate, h1, h2, h3, h4, h5]⟩
  · intro _
    refine ⟨?_, ?_, ?_, ?_, ?_, ?_⟩
    · intro e h1
      simp [Schema.validate, h1]
    · intro l1 e h1 h2
      simp [Schema.validate, h1, h2]
    · intro l1 l2 e h1 h2 h3
      simp [Schema.validate, h1, h2, h3]
    · intro l1 l2 l3 e h1 h2 h3 h4
      simp [Schema.validate, h1, h2, h3, h4]
    · intro l1 l2 l3 l4 e h1 h2 h3 h4 h5
      simp [Schema.validate, h1, h2, h3, h4, h5]
    · intro l1 l2 l3 l4 l5 h1 h2 h3 h4 h5
      simp [Schema.validate, h1, h2, h3, h4, h5]

theorem validate_check_order_and_policy_witness :
    sampleBoundSchema.expected_dims = DimsSpec.concrete [] ∧
    sampleBoundSchema.expected_coords = CoordsSpec.concrete [] ∧
    coords_as_dict sampleNeg5Array = .ok [("x", [.int 1])] ∧
    sampleBoundSchema.coord_match_type = "exact" ∧
    sampleBoundSchema.raise_errors = false ∧
    (∃ m1 m2 m3 m4 m5,
      sampleBoundSchema.dimCheckStep sampleNeg5Array = .ok m1 ∧
      sampleBoundSchema.coordCheckStep sampleNeg5Array = .ok m2 ∧
      sampleBoundSchema.nanCheckStep sampleNeg5Array = .ok m3 ∧
      sampleBoundSchema.ensure_values_above_minimum sampleNeg5Array = .ok m4 ∧
      sampleBoundSchema.ensure_values_below_maximum sampleNeg5Array = .ok m5 ∧
      sampleBoundSchema.validate sampleNeg5Array =
        .ok (m1 ++ m2 ++ m3 ++ m4 ++ m5)) := by
  refine ⟨rfl, rfl, rfl, rfl, rfl, ?_⟩
  exact (validate_check_order_and_policy sampleBoundSchema sampleNeg5Array []
    [] [("x", [.int 1])] rfl rfl rfl (Or.inl rfl)).1 rfl

end XarrayAnnotations
